import Mathlib

/-!
Verification of the `driver-pal` transactional SPI wrapper, its mock
expectation engine and its HAL dispatch layer, against a shallow embedding of
the Rust source (src/wrapper.rs, src/lib.rs, src/mock.rs, src/hal/mod.rs,
src/hal/linux.rs).

Rust side effects are made explicit: the SPI bus and the pins are modelled as
state machines (structures of state-transition functions), buffers are
`List Nat` of byte values, fallible calls return `Except`, and each wrapper
operation additionally returns the trace of calls it issued to the bus and to
the chip-select pin, in order.
-/

namespace DriverPal

/-- Pin logic state, from `PinState` in src/lib.rs (variants `Low`, `High`). -/
inductive PinState
  | Low
  | High
deriving DecidableEq, Repr

/-- Composite error type as used by src/wrapper.rs: `Error<SpiError, PinError>`
with variants `Spi` and `Pin`.  (The src/lib.rs revision in this snapshot also
carries `Delay`/`Aborted` variants; the wrapper methods under verification
construct only `Spi` and `Pin`.) -/
inductive Error (es ep : Type)
  | Spi (e : es)
  | Pin (e : ep)
deriving DecidableEq, Repr

/-- An SPI bus capability (`embedded_hal::blocking::spi::{Transfer, Write}`):
a state machine over bus states `σ`.  `transfer` writes the buffer and returns
the bytes clocked in (which the Rust code stores into the same buffer in
place). -/
structure SpiBus (σ es : Type) where
  write : σ → List Nat → σ × Except es Unit
  transfer : σ → List Nat → σ × Except es (List Nat)

/-- An output pin capability (`embedded_hal::digital::v2::OutputPin`). -/
structure OutPin (π ep : Type) where
  set_low : π → π × Except ep Unit
  set_high : π → π × Except ep Unit

/-- An input pin capability (`embedded_hal::digital::v2::InputPin`). -/
structure InPin (ρ ep : Type) where
  is_high : ρ → ρ × Except ep Bool

/-- The `Wrapper` state, from src/wrapper.rs lines 13-34: an SPI bus state, a
required chip-select pin state, optional busy/ready input pins and reset
output pin, and the stored FFI error `err`.  (The `delay` field takes part in
no verified operation and is omitted.) -/
structure Wrapper (σ π ρ es ep : Type) where
  spi : σ
  cs : π
  busy : Option ρ
  ready : Option ρ
  reset : Option π
  err : Option (Error es ep)

/-- One call issued by the wrapper to the underlying bus. -/
inductive BusCall
  | write (data : List Nat)
  | transfer (data : List Nat)
deriving DecidableEq, Repr

/-- One call issued by the wrapper to the chip-select pin. -/
inductive CsCall
  | set_low
  | set_high
deriving DecidableEq, Repr

/-- Result of `spi_read`/`spi_write`: the updated wrapper, the returned
`Result`, the final contents of the caller's data buffer, and the traces of
bus calls (with their success flag) and chip-select calls, in issue order. -/
structure SpiOut (σ π ρ es ep : Type) where
  w : Wrapper σ π ρ es ep
  res : Except (Error es ep) Unit
  data : List Nat
  bus : List (BusCall × Bool)
  csCalls : List CsCall

/-- The shared tail of `spi_read`/`spi_write` (src/wrapper.rs lines 132-141
and 159-166): clear CS via `set_high` — whose failure is propagated at once by
`?` as a `Pin` error, preempting any pending bus error — then map the pending
bus result (`Err(e) => Err(Error::Spi(e))`).  The stored `err` field is not
touched on this path. -/
def csFinish (P : OutPin π ep) (w : Wrapper σ π ρ es ep) (spi1 : σ) (res : Except es Unit)
    (cs1 : π) (data : List Nat) (bus : List (BusCall × Bool)) : SpiOut σ π ρ es ep :=
  match P.set_high cs1 with
  | (cs2, Except.error e) =>
      { w := { w with spi := spi1, cs := cs2 }, res := Except.error (Error.Pin e),
        data := data, bus := bus, csCalls := [CsCall.set_low, CsCall.set_high] }
  | (cs2, Except.ok _) =>
      { w := { w with spi := spi1, cs := cs2 },
        res := match res with
               | Except.error e => Except.error (Error.Spi e)
               | Except.ok _ => Except.ok (),
        data := data, bus := bus, csCalls := [CsCall.set_low, CsCall.set_high] }

/-- Shallow embedding of `Wrapper::spi_read` (src/wrapper.rs lines 120-142):
assert CS (`set_low`, failure returned at once), write the command bytes, and
only if that succeeded transfer into the data buffer; then clear CS and map
the bus result. -/
def spi_read (B : SpiBus σ es) (P : OutPin π ep) (w : Wrapper σ π ρ es ep)
    (pfx data : List Nat) : SpiOut σ π ρ es ep :=
  match P.set_low w.cs with
  | (cs1, Except.error e) =>
      { w := { w with cs := cs1 }, res := Except.error (Error.Pin e),
        data := data, bus := [], csCalls := [CsCall.set_low] }
  | (cs1, Except.ok _) =>
    match B.write w.spi pfx with
    | (spi1, Except.error e1) =>
        csFinish P w spi1 (Except.error e1) cs1 data [(BusCall.write pfx, false)]
    | (spi1, Except.ok _) =>
      match B.transfer spi1 data with
      | (spi2, Except.error e2) =>
          csFinish P w spi2 (Except.error e2) cs1 data
            [(BusCall.write pfx, true), (BusCall.transfer data, false)]
      | (spi2, Except.ok received) =>
          csFinish P w spi2 (Except.ok ()) cs1 received
            [(BusCall.write pfx, true), (BusCall.transfer data, true)]

/-- Shallow embedding of `Wrapper::spi_write` (src/wrapper.rs lines 145-167):
assert CS, write the command bytes, and only if that succeeded write the data
bytes; then clear CS and map the bus result. -/
def spi_write (B : SpiBus σ es) (P : OutPin π ep) (w : Wrapper σ π ρ es ep)
    (pfx data : List Nat) : SpiOut σ π ρ es ep :=
  match P.set_low w.cs with
  | (cs1, Except.error e) =>
      { w := { w with cs := cs1 }, res := Except.error (Error.Pin e),
        data := data, bus := [], csCalls := [CsCall.set_low] }
  | (cs1, Except.ok _) =>
    match B.write w.spi pfx with
    | (spi1, Except.error e1) =>
        csFinish P w spi1 (Except.error e1) cs1 data [(BusCall.write pfx, false)]
    | (spi1, Except.ok _) =>
      match B.write spi1 data with
      | (spi2, Except.error e2) =>
          csFinish P w spi2 (Except.error e2) cs1 data
            [(BusCall.write pfx, true), (BusCall.write data, false)]
      | (spi2, Except.ok _) =>
          csFinish P w spi2 (Except.ok ()) cs1 data
            [(BusCall.write pfx, true), (BusCall.write data, true)]

/-- A transaction step, from the `Transaction` enumeration matched by
`spi_exec` in src/wrapper.rs (variants `Write` and `Read`, each carrying a
byte buffer). -/
inductive Transaction
  | Write (data : List Nat)
  | Read (data : List Nat)
deriving DecidableEq, Repr

/-- The bus call a transaction step issues: `Write(d)` calls `spi.write(d)`,
`Read(d)` calls `spi.transfer(d)` (src/wrapper.rs lines 180-181). -/
def Transaction.toCall : Transaction → BusCall
  | Transaction.Write d => BusCall.write d
  | Transaction.Read d => BusCall.transfer d

/-- One iteration body of the `spi_exec` loop (src/wrapper.rs lines 179-182):
dispatch the step to `spi.write` or `spi.transfer` (whose returned bytes are
discarded by `.map(|_r| ())`). -/
def busStep (B : SpiBus σ es) (spi : σ) (t : Transaction) : σ × Except es Unit :=
  match t with
  | Transaction.Write d => B.write spi d
  | Transaction.Read d =>
      match B.transfer spi d with
      | (s, r) => (s, r.map fun _ => ())

/-- The `spi_exec` loop (src/wrapper.rs lines 176-187): issue each transaction
in list order, breaking after the first bus failure.  Returns the final bus
state, the pending result, and the trace of issued bus calls, each flagged
with whether it succeeded. -/
def execOps (B : SpiBus σ es) : σ → List Transaction → σ × Except es Unit × List (BusCall × Bool)
  | spi, [] => (spi, Except.ok (), [])
  | spi, t :: rest =>
    match busStep B spi t with
    | (spi1, Except.error e) => (spi1, Except.error e, [(t.toCall, false)])
    | (spi1, Except.ok _) =>
      match execOps B spi1 rest with
      | (spi2, res, tr) => (spi2, res, (t.toCall, true) :: tr)

/-- Result of `spi_exec`: updated wrapper, returned `Result`, and the traces
of bus and chip-select calls. -/
structure ExecOut (σ π ρ es ep : Type) where
  w : Wrapper σ π ρ es ep
  res : Except (Error es ep) Unit
  bus : List (BusCall × Bool)
  csCalls : List CsCall

/-- Shallow embedding of `Wrapper::spi_exec` (src/wrapper.rs lines 170-193).
Note that BOTH chip-select operations in the source are `set_low`: the closing
call at line 190 is `self.cs.set_low()` — not `set_high` — so the source
re-asserts CS instead of clearing it before returning. -/
def spi_exec (B : SpiBus σ es) (P : OutPin π ep) (w : Wrapper σ π ρ es ep)
    (transactions : List Transaction) : ExecOut σ π ρ es ep :=
  match P.set_low w.cs with
  | (cs1, Except.error e) =>
      { w := { w with cs := cs1 }, res := Except.error (Error.Pin e),
        bus := [], csCalls := [CsCall.set_low] }
  | (cs1, Except.ok _) =>
    match execOps B w.spi transactions with
    | (spi1, res, tr) =>
      match P.set_low cs1 with
      | (cs2, Except.error e) =>
          { w := { w with spi := spi1, cs := cs2 }, res := Except.error (Error.Pin e),
            bus := tr, csCalls := [CsCall.set_low, CsCall.set_low] }
      | (cs2, Except.ok _) =>
          { w := { w with spi := spi1, cs := cs2 },
            res := match res with
                   | Except.error e => Except.error (Error.Spi e)
                   | Except.ok _ => Except.ok (),
            bus := tr, csCalls := [CsCall.set_low, CsCall.set_low] }

/-- `Wrapper::check_error` (src/wrapper.rs lines 101-106): take and return the
stored error, clearing it. -/
def check_error (w : Wrapper σ π ρ es ep) :
    Wrapper σ π ρ es ep × Except (Error es ep) Unit :=
  match w.err with
  | some e => ({ w with err := none }, Except.error e)
  | none => (w, Except.ok ())

/-- `Busy::get_busy` for `Wrapper` (src/wrapper.rs lines 208-220): with no
busy pin bound the source returns `Ok(PinState::Low)` (the `None` arm, marked
`TODO: should this be an error?`); otherwise it forwards to `is_high`. -/
def get_busy (I : InPin ρ ep) (w : Wrapper σ π ρ es ep) :
    Wrapper σ π ρ es ep × Except (Error es ep) PinState :=
  match w.busy with
  | none => (w, Except.ok PinState.Low)
  | some b =>
    match I.is_high b with
    | (b1, Except.error e) => ({ w with busy := some b1 }, Except.error (Error.Pin e))
    | (b1, Except.ok true) => ({ w with busy := some b1 }, Except.ok PinState.High)
    | (b1, Except.ok false) => ({ w with busy := some b1 }, Except.ok PinState.Low)

/-- `Ready::get_ready` for `Wrapper` (src/wrapper.rs lines 234-246): same
shape as `get_busy`, over the `ready` pin. -/
def get_ready (I : InPin ρ ep) (w : Wrapper σ π ρ es ep) :
    Wrapper σ π ρ es ep × Except (Error es ep) PinState :=
  match w.ready with
  | none => (w, Except.ok PinState.Low)
  | some b =>
    match I.is_high b with
    | (b1, Except.error e) => ({ w with ready := some b1 }, Except.error (Error.Pin e))
    | (b1, Except.ok true) => ({ w with ready := some b1 }, Except.ok PinState.High)
    | (b1, Except.ok false) => ({ w with ready := some b1 }, Except.ok PinState.Low)

/-- `Reset::set_reset` for `Wrapper` (src/wrapper.rs lines 260-269): with no
reset pin bound the source returns `Ok(())`; otherwise it forwards to
`set_high`/`set_low`. -/
def set_reset (P : OutPin π ep) (w : Wrapper σ π ρ es ep) (state : PinState) :
    Wrapper σ π ρ es ep × Except (Error es ep) Unit :=
  match w.reset with
  | none => (w, Except.ok ())
  | some p =>
    match state with
    | PinState.High =>
      match P.set_high p with
      | (p1, Except.error e) => ({ w with reset := some p1 }, Except.error (Error.Pin e))
      | (p1, Except.ok _) => ({ w with reset := some p1 }, Except.ok ())
    | PinState.Low =>
      match P.set_low p with
      | (p1, Except.error e) => ({ w with reset := some p1 }, Except.error (Error.Pin e))
      | (p1, Except.ok _) => ({ w with reset := some p1 }, Except.ok ())

/-! Concrete bus and pin instances used to evaluate the wrapper operations at
explicit inputs. -/

/-- A bus over trivial state whose operations always succeed; `transfer`
returns the outgoing buffer unchanged. -/
def okBus : SpiBus Unit Unit :=
  { write := fun s _ => (s, Except.ok ()),
    transfer := fun s d => (s, Except.ok d) }

/-- A bus whose operations always fail. -/
def failBus : SpiBus Unit Unit :=
  { write := fun s _ => (s, Except.error ()),
    transfer := fun s _ => (s, Except.error ()) }

/-- A chip-select pin modelled by its logic level (`true` = high); operations
always succeed and set the level. -/
def levelPin : OutPin Bool Unit :=
  { set_low := fun _ => (false, Except.ok ()),
    set_high := fun _ => (true, Except.ok ()) }

/-- A pin whose `set_low` succeeds (driving the level low) but whose
`set_high` always fails, leaving the level unchanged. -/
def stuckLowPin : OutPin Bool Unit :=
  { set_low := fun _ => (false, Except.ok ()),
    set_high := fun b => (b, Except.error ()) }

/-- An input pin over trivial state that always reads low. -/
def lowInPin : InPin Unit Unit :=
  { is_high := fun p => (p, Except.ok false) }

/-- A wrapper over `okBus`-shaped state: trivial bus state, CS level starting
high, no optional pins bound, no stored error. -/
def w0 : Wrapper Unit Bool Unit Unit Unit :=
  { spi := (), cs := true, busy := none, ready := none, reset := none, err := none }

/-- C1: the claim says CS is driven high before every return of `spi_write`,
`spi_read` and `spi_exec`.  The code violates this for `spi_exec`: its closing
chip-select call (src/wrapper.rs line 190) is `set_low`, so even a fully
successful `spi_exec` issues `[set_low, set_low]` and returns with the CS
level still low (asserted).  This theorem evaluates the embedding at that
failing input. -/
theorem spi_exec_leaves_cs_asserted :
    (spi_exec okBus levelPin w0 [Transaction.Write [1]]).res = Except.ok ()
    ∧ (spi_exec okBus levelPin w0 [Transaction.Write [1]]).w.cs = false
    ∧ (spi_exec okBus levelPin w0 [Transaction.Write [1]]).csCalls
        = [CsCall.set_low, CsCall.set_low] :=
  ⟨rfl, rfl, rfl⟩

/-- Characterization of the `spi_exec` loop trace: either every transaction
was issued, in order, and every bus call succeeded, or the issued calls are
exactly the transactions up to and including the first one whose bus call
failed, and nothing after it. -/
theorem execOps_trace_cases (B : SpiBus σ es) :
    ∀ (spi : σ) (ts : List Transaction),
      (execOps B spi ts).2.2 = ts.map (fun t => (t.toCall, true))
      ∨ ∃ k, ∃ hk : k < ts.length,
          (execOps B spi ts).2.2
            = ((ts.take k).map fun t => (t.toCall, true)) ++ [(ts[k].toCall, false)] := by
  intro spi ts
  induction ts generalizing spi with
  | nil => exact Or.inl rfl
  | cons t rest ih =>
    rcases hstep : busStep B spi t with ⟨spi1, r⟩
    cases r with
    | error e =>
      refine Or.inr ⟨0, by simp, ?_⟩
      simp [execOps, hstep]
    | ok u =>
      rcases hrec : execOps B spi1 rest with ⟨spi2, res, tr⟩
      rcases ih spi1 with h | ⟨k, hk, h⟩
      · left
        simp only [execOps, hstep, hrec, List.map_cons]
        rw [hrec] at h
        simpa using h
      · refine Or.inr ⟨k + 1, by simpa using Nat.succ_lt_succ hk, ?_⟩
        simp only [execOps, hstep, hrec]
        rw [hrec] at h
        simp only at h
        simp [h, List.take_succ_cons]

/-- The bus trace of `spi_exec` is the loop trace whenever the initial CS
assertion succeeds (the closing `set_low` result does not change the trace). -/
theorem spi_exec_bus_eq (B : SpiBus σ es) (P : OutPin π ep) (w : Wrapper σ π ρ es ep)
    (ts : List Transaction) (h : (P.set_low w.cs).2 = Except.ok ()) :
    (spi_exec B P w ts).bus = (execOps B w.spi ts).2.2 := by
  rcases hp : P.set_low w.cs with ⟨cs1, r⟩
  rw [hp] at h
  simp only at h
  subst h
  rcases he : execOps B w.spi ts with ⟨spi1, res, tr⟩
  rcases hq : P.set_low cs1 with ⟨cs2, r2⟩
  cases r2 <;> cases res <;> simp [spi_exec, hp, he, hq]

/-- C2: order preservation of `spi_exec`.  Provided the initial chip-select
assertion succeeds (otherwise the call returns before touching the bus), the
trace of calls the underlying bus receives is either every transaction in
list order, each succeeding, or exactly the transactions up to and including
the first one whose bus call failed — in list order, with every earlier call
succeeding — and no transaction after the failing one is issued. -/
theorem spi_exec_order_preservation (B : SpiBus σ es) (P : OutPin π ep)
    (w : Wrapper σ π ρ es ep) (ts : List Transaction)
    (h : (P.set_low w.cs).2 = Except.ok ()) :
    (spi_exec B P w ts).bus = ts.map (fun t => (t.toCall, true))
    ∨ ∃ k, ∃ hk : k < ts.length,
        (spi_exec B P w ts).bus
          = ((ts.take k).map fun t => (t.toCall, true)) ++ [(ts[k].toCall, false)] := by
  rw [spi_exec_bus_eq B P w ts h]
  exact execOps_trace_cases B w.spi ts

/-- A bus over a call-counting state whose second call fails (used to witness
the order-preservation theorem on a run with a mid-sequence failure). -/
def failSecondBus : SpiBus Nat Unit :=
  { write := fun s _ => (s + 1, if s = 1 then Except.error () else Except.ok ()),
    transfer := fun s d => (s + 1, if s = 1 then Except.error () else Except.ok d) }

/-- A wrapper over `failSecondBus`-shaped state. -/
def wNat : Wrapper Nat Bool Unit Unit Unit :=
  { spi := 0, cs := true, busy := none, ready := none, reset := none, err := none }

/-- Witness for the order-preservation theorem: a concrete three-transaction
`spi_exec` run whose second bus call fails. -/
theorem spi_exec_order_preservation_witness :
    (levelPin.set_low wNat.cs).2 = Except.ok ()
    ∧ ((spi_exec failSecondBus levelPin wNat
          [Transaction.Write [1], Transaction.Read [2], Transaction.Write [3]]).bus
        = [Transaction.Write [1], Transaction.Read [2], Transaction.Write [3]].map
            (fun t => (t.toCall, true))
      ∨ ∃ k, ∃ hk : k <
          [Transaction.Write [1], Transaction.Read [2], Transaction.Write [3]].length,
          (spi_exec failSecondBus levelPin wNat
              [Transaction.Write [1], Transaction.Read [2], Transaction.Write [3]]).bus
            = (([Transaction.Write [1], Transaction.Read [2],
                  Transaction.Write [3]].take k).map fun t => (t.toCall, true))
              ++ [([Transaction.Write [1], Transaction.Read [2],
                    Transaction.Write [3]][k].toCall, false)]) :=
  ⟨rfl, spi_exec_order_preservation failSecondBus levelPin wNat
      [Transaction.Write [1], Transaction.Read [2], Transaction.Write [3]] rfl⟩

/-- C3: prefix gating.  If the chip-select assertion succeeds but the bus
write of the command bytes fails, then both `spi_read` and `spi_write` issue
exactly that one failing bus call: the data step (the transfer of `spi_read`,
the data write of `spi_write`) is never issued to the bus. -/
theorem prefix_gating (B : SpiBus σ es) (P : OutPin π ep) (w : Wrapper σ π ρ es ep)
    (pfx data : List Nat) (cs1 : π) (spi1 : σ) (e : es)
    (h0 : P.set_low w.cs = (cs1, Except.ok ()))
    (h1 : B.write w.spi pfx = (spi1, Except.error e)) :
    (spi_read B P w pfx data).bus = [(BusCall.write pfx, false)]
    ∧ (spi_write B P w pfx data).bus = [(BusCall.write pfx, false)] := by
  constructor <;>
    · rcases hq : P.set_high cs1 with ⟨cs2, r2⟩
      cases r2 <;> simp [spi_read, spi_write, csFinish, h0, h1, hq]

/-- Witness for the prefix-gating theorem: a concrete `spi_read`/`spi_write`
pair over the always-failing bus. -/
theorem prefix_gating_witness :
    levelPin.set_low w0.cs = (false, Except.ok ())
    ∧ failBus.write w0.spi [2] = ((), Except.error ())
    ∧ (spi_read failBus levelPin w0 [2] [0, 0]).bus = [(BusCall.write [2], false)]
    ∧ (spi_write failBus levelPin w0 [2] [7]).bus = [(BusCall.write [2], false)] := by
  refine ⟨rfl, rfl, ?_, ?_⟩
  · exact (prefix_gating failBus levelPin w0 [2] [0, 0] false () () rfl rfl).1
  · exact (prefix_gating failBus levelPin w0 [2] [7] false () () rfl rfl).2

/-- C4 counterexample.  The claim says that when a bus operation fails and the
subsequent CS deassertion also fails, the returned error is the primary bus
failure (`Error::Spi`) and the pin failure is retained, retrievable through
`check_error`.  At this concrete input (bus write fails, `set_high` fails) the
code returns the `Pin` error instead, leaves the stored `err` field `none`,
and a subsequent `check_error` returns `Ok(())`: the bus error is dropped and
nothing is retained. -/
theorem spi_write_error_priority_counterexample :
    (spi_write failBus stuckLowPin w0 [2] [7]).res = Except.error (Error.Pin ())
    ∧ (spi_write failBus stuckLowPin w0 [2] [7]).res ≠ Except.error (Error.Spi ())
    ∧ (spi_write failBus stuckLowPin w0 [2] [7]).w.err = none
    ∧ (check_error (spi_write failBus stuckLowPin w0 [2] [7]).w).2 = Except.ok () := by
  refine ⟨rfl, ?_, rfl, rfl⟩
  intro h
  simp [spi_write, spi_read, csFinish, failBus, stuckLowPin, w0] at h

/-- C4 as amended: in every `spi_read` or `spi_write` call in which a bus
operation fails — whether the prefix write, or the subsequent transfer (read)
or data write (write) — and the CS deassertion (`set_high`) also fails, the
error returned to the caller is the `Pin` error from the CS deassertion (the
`?` on `set_high` preempts the pending bus error, which is discarded), and
the stored `err` field — the state `check_error` reads — is left unchanged.
The bus failure is stated call-level, as a failed entry in the call's own bus
trace, so every reachable failure point is covered.  (`set_high` is applied
to the pin state `cs1` left by the successful CS assertion on every such
path.) -/
theorem spi_error_priority (B : SpiBus σ es) (P : OutPin π ep) (w : Wrapper σ π ρ es ep)
    (pfx data : List Nat) (cs1 cs2 : π) (ep1 : ep)
    (h0 : P.set_low w.cs = (cs1, Except.ok ()))
    (h2 : P.set_high cs1 = (cs2, Except.error ep1)) :
    ((∃ ev ∈ (spi_read B P w pfx data).bus, ev.2 = false) →
        (spi_read B P w pfx data).res = Except.error (Error.Pin ep1)
        ∧ (spi_read B P w pfx data).w.err = w.err)
    ∧ ((∃ ev ∈ (spi_write B P w pfx data).bus, ev.2 = false) →
        (spi_write B P w pfx data).res = Except.error (Error.Pin ep1)
        ∧ (spi_write B P w pfx data).w.err = w.err) := by
  refine ⟨fun _ => ?_, fun _ => ?_⟩
  · rcases h1 : B.write w.spi pfx with ⟨spi1, r1⟩
    cases r1 with
    | error e1 => constructor <;> simp [spi_read, csFinish, h0, h1, h2]
    | ok u =>
      rcases ht : B.transfer spi1 data with ⟨spi2, r2⟩
      cases r2 <;> (constructor <;> simp [spi_read, csFinish, h0, h1, ht, h2])
  · rcases h1 : B.write w.spi pfx with ⟨spi1, r1⟩
    cases r1 with
    | error e1 => constructor <;> simp [spi_write, csFinish, h0, h1, h2]
    | ok u =>
      rcases hd : B.write spi1 data with ⟨spi2, r2⟩
      cases r2 <;> (constructor <;> simp [spi_write, csFinish, h0, h1, hd, h2])

/-- Witness for the amended error-priority theorem at a concrete input in
which the prefix write succeeds and the DATA write fails (the bus fails on
its second call), followed by a failing `set_high`. -/
theorem spi_error_priority_witness :
    stuckLowPin.set_low wNat.cs = (false, Except.ok ())
    ∧ stuckLowPin.set_high false = (false, Except.error ())
    ∧ (∃ ev ∈ (spi_write failSecondBus stuckLowPin wNat [2] [7]).bus, ev.2 = false)
    ∧ (spi_write failSecondBus stuckLowPin wNat [2] [7]).res = Except.error (Error.Pin ())
    ∧ (spi_write failSecondBus stuckLowPin wNat [2] [7]).w.err = wNat.err := by
  refine ⟨rfl, rfl, by decide, ?_, ?_⟩
  · exact ((spi_error_priority failSecondBus stuckLowPin wNat [2] [7] false false ()
        rfl rfl).2 (by decide)).1
  · exact ((spi_error_priority failSecondBus stuckLowPin wNat [2] [7] false false ()
        rfl rfl).2 (by decide)).2

/-- C5 counterexample.  The claim says a `Wrapper` built without a busy
(resp. ready, reset) pin returns a distinguishable "no pin bound" error from
`get_busy` (resp. `get_ready`, `set_reset`) and in particular never returns
`Ok(PinState::Low)` or `Ok(())`.  On the concrete wrapper `w0`, which binds
none of the optional pins, the code returns exactly those silent defaults. -/
theorem optional_pin_counterexample :
    (get_busy lowInPin w0).2 = Except.ok PinState.Low
    ∧ (get_ready lowInPin w0).2 = Except.ok PinState.Low
    ∧ (set_reset levelPin w0 PinState.High).2 = Except.ok () :=
  ⟨rfl, rfl, rfl⟩

/-- C5 as amended: on every `Wrapper` whose busy (resp. ready, reset) pin is
unbound, `get_busy` and `get_ready` return `Ok(PinState::Low)` and `set_reset`
returns `Ok(())` — silent defaults, not errors (the error type has no
"no pin bound" variant), with the wrapper state untouched.  The calls are
total functions of the state: they cannot panic or block. -/
theorem optional_pin_defaults (I : InPin ρ ep) (P : OutPin π ep)
    (w : Wrapper σ π ρ es ep) (st : PinState)
    (hb : w.busy = none) (hr : w.ready = none) (hs : w.reset = none) :
    get_busy I w = (w, Except.ok PinState.Low)
    ∧ get_ready I w = (w, Except.ok PinState.Low)
    ∧ set_reset P w st = (w, Except.ok ()) := by
  refine ⟨?_, ?_, ?_⟩ <;> simp [get_busy, get_ready, set_reset, hb, hr, hs]

/-- Witness for the optional-pin-defaults theorem at the concrete wrapper
`w0`. -/
theorem optional_pin_defaults_witness :
    w0.busy = none ∧ w0.ready = none ∧ w0.reset = none
    ∧ get_busy lowInPin w0 = (w0, Except.ok PinState.Low)
    ∧ set_reset levelPin w0 PinState.Low = (w0, Except.ok ()) :=
  ⟨rfl, rfl, rfl,
    (optional_pin_defaults lowInPin levelPin w0 PinState.Low rfl rfl rfl).1,
    (optional_pin_defaults lowInPin levelPin w0 PinState.Low rfl rfl rfl).2.2⟩

/-! The mock / expectation engine, from src/mock.rs, together with the blanket
`prefix_read`/`prefix_write` implementations over `Transactional` from
src/lib.rs lines 155-195 (which the mock `Spi` handle picks up through its
`exec`).  The shared `Inner` log behind the session mutex is modelled as an
explicit state threaded through each handle operation; a handle is its
identity counter value (`Id = u32`, modelled as `Nat`). -/

/-- A step of an SPI `exec` operation list, from the re-exported
`embedded_hal::spi::blocking::Operation` matched in src/mock.rs: a pure write
or an in-place transfer, each carrying a byte buffer. -/
inductive SpiOp
  | Write (data : List Nat)
  | Transfer (data : List Nat)
deriving DecidableEq, Repr

/-- `MockExec`, src/mock.rs lines 141-145: an expected or recorded step inside
an exec transaction (outgoing bytes, and for transfers also incoming bytes). -/
inductive MockExec
  | SpiWrite (outgoing : List Nat)
  | SpiTransfer (outgoing incoming : List Nat)
deriving DecidableEq, Repr

/-- `From<&SpiOperation> for MockExec`, src/mock.rs lines 147-156: a write
records its bytes; a transfer records the current buffer as outgoing and a
zero-filled vector of the same length as incoming. -/
def MockExec.ofOp : SpiOp → MockExec
  | SpiOp.Write d => MockExec.SpiWrite d
  | SpiOp.Transfer d => MockExec.SpiTransfer d (List.replicate d.length 0)

/-- `MockTransaction`, src/mock.rs lines 41-63: one expected or actual record,
tagged with the identity of the issuing handle. -/
inductive MockTransaction
  | None
  | SpiWrite (id : Nat) (pfx outgoing : List Nat)
  | SpiRead (id : Nat) (pfx incoming : List Nat)
  | SpiExec (id : Nat) (ops : List MockExec)
  | Busy (id : Nat) (state : PinState)
  | Ready (id : Nat) (state : PinState)
  | Reset (id : Nat) (state : PinState)
  | Write (id : Nat) (outgoing : List Nat)
  | Transfer (id : Nat) (outgoing incoming : List Nat)
  | IsHigh (id : Nat) (value : Bool)
  | IsLow (id : Nat) (value : Bool)
  | SetHigh (id : Nat)
  | SetLow (id : Nat)
  | DelayMs (value : Nat)
  | DelayUs (value : Nat)
deriving DecidableEq, Repr

/-- `Inner`, src/mock.rs lines 158-163: the expectation cursor, the expected
sequence, and the actual-call history. -/
structure Inner where
  index : Nat
  expected : List MockTransaction
  actual : List MockTransaction
deriving DecidableEq, Repr

/-- `Inner::finalise`, src/mock.rs lines 166-168: `assert_eq!(expected,
actual)` — the session verification succeeds exactly when the derived
structural equality holds, and otherwise panics (aborting the test). -/
def Inner.finaliseOk (i : Inner) : Bool :=
  decide (i.expected = i.actual)

/-- `Mock::expect`, src/mock.rs lines 185-199: overwrite the shared `Inner`
with cursor zero, the given expected sequence, and an empty actual history,
whatever state it held before. -/
def Mock.expect (_prior : Inner) (transactions : List MockTransaction) : Inner :=
  { index := 0, expected := transactions, actual := [] }

/-- Mock `Write::write` for the `Spi` handle, src/mock.rs lines 359-369:
append the actual record and advance the cursor. -/
def MockSpi.write (id : Nat) (i : Inner) (data : List Nat) : Inner :=
  { i with actual := i.actual ++ [MockTransaction.Write id data], index := i.index + 1 }

/-- Mock `Transfer::transfer` for the `Spi` handle, src/mock.rs lines 329-353:
copy the expected incoming bytes into the buffer first (only when the
expectation at the cursor is a `Transfer` of equal length), then append the
actual record — outgoing bytes as captured before the copy, incoming bytes as
the buffer after it — and advance the cursor.  Returns the buffer contents
after the call. -/
def MockSpi.transfer (id : Nat) (i : Inner) (data : List Nat) : Inner × List Nat :=
  let incoming := data
  let data2 :=
    match i.expected.get? i.index with
    | some (MockTransaction.Transfer _ _ expIn) =>
        if expIn.length = data.length then expIn else data
    | _ => data
  ({ i with actual := i.actual ++ [MockTransaction.Transfer id incoming data2],
            index := i.index + 1 }, data2)

/-- The expected-read loading loop of the mock `exec`, src/mock.rs lines
394-408: walk the operation list together with the expected exec steps
(`e.get(i)`); a `Transfer` step paired with an expected `SpiTransfer` takes
the expected incoming bytes (`copy_from_slice`, defined when the lengths
match — on a length mismatch the source panics, a case no verified input
reaches); every other pairing leaves the step unchanged. -/
def execLoad : List SpiOp → List MockExec → List SpiOp
  | [], _ => []
  | op :: rest, [] => op :: rest
  | op :: rest, x :: xs =>
    (match op, x with
     | SpiOp.Transfer tIn, MockExec.SpiTransfer _ xIn =>
         if xIn.length = tIn.length then SpiOp.Transfer xIn else SpiOp.Transfer tIn
     | op, _ => op) :: execLoad rest xs

/-- Mock `Transactional::exec` for the `Spi` handle, src/mock.rs lines
375-415: FIRST append the actual `SpiExec` record (built from the operations
as they stand, transfers paired with zero-filled incoming bytes), THEN — only
when the expectation at the cursor is itself a `SpiExec` — load expected
incoming bytes into the transfer steps, and advance the cursor.  (The
source indexes `expected[index]` and would panic when the cursor is past the
end; no verified input reaches that case, which is modelled as no match.)
Returns the updated operation buffers; the Rust result is always `Ok(())`. -/
def MockSpi.exec (id : Nat) (i : Inner) (operations : List SpiOp) : Inner × List SpiOp :=
  let recorded := operations.map MockExec.ofOp
  let i1 := { i with actual := i.actual ++ [MockTransaction.SpiExec id recorded] }
  let ops2 :=
    match i1.expected.get? i.index with
    | some (MockTransaction.SpiExec _ e) => execLoad operations e
    | _ => operations
  ({ i1 with index := i1.index + 1 }, ops2)

/-- Blanket `PrefixWrite::prefix_write` over `Transactional`, src/lib.rs lines
155-169, applied to the mock `Spi`: run `exec` on
`[Write(pfx), Write(data)]`. -/
def MockSpi.prefix_write (id : Nat) (i : Inner) (pfx data : List Nat) : Inner :=
  (MockSpi.exec id i [SpiOp.Write pfx, SpiOp.Write data]).1

/-- Blanket `PrefixRead::prefix_read` over `Transactional`, src/lib.rs lines
172-195, applied to the mock `Spi`: run `exec` on
`[Write(pfx), Transfer(data)]`; the caller's buffer afterwards holds the
transfer step's buffer as `exec` left it. -/
def MockSpi.prefix_read (id : Nat) (i : Inner) (pfx data : List Nat) : Inner × List Nat :=
  match MockSpi.exec id i [SpiOp.Write pfx, SpiOp.Transfer data] with
  | (i1, ops2) =>
    (i1, match ops2.get? 1 with
         | some (SpiOp.Transfer d) => d
         | _ => data)

/-- Mock `InputPin::is_high` for the `Pin` handle, src/mock.rs lines 421-438:
read the expected value at the cursor (defaulting to `false` on any other
expectation), append the actual record tagged with THIS handle's identity,
advance the cursor, and return the value. -/
def MockPin.is_high (id : Nat) (i : Inner) : Inner × Bool :=
  let v :=
    match i.expected.get? i.index with
    | some (MockTransaction.IsHigh _ value) => value
    | _ => false
  ({ i with actual := i.actual ++ [MockTransaction.IsHigh id v], index := i.index + 1 }, v)

/-- The empty mock session state (`Mock::new`, src/mock.rs lines 173-182). -/
def Inner.fresh : Inner :=
  { index := 0, expected := [], actual := [] }

/-- C6: the claim (and the spec's mock round-trip property) says that with the
single expectation `SpiRead(prefix=[0xFF], data=[0xAA,0xBB])`, calling
`prefix_read([0xFF], two-byte buffer)` fills the buffer with `[0xAA, 0xBB]`
and makes `finalise()` succeed.  The code does neither: `prefix_read` goes
through `exec`, which appends an actual `SpiExec` record (never `SpiRead`) and
loads expected bytes only from a `SpiExec` expectation, so the buffer stays
`[0x00, 0x00]` and `finalise` fails on `expected ≠ actual`.  (The repository's
own round-trip test is `#[ignore]`-marked "TODO: needs fixing".)  This theorem
evaluates the embedding at that failing input. -/
theorem mock_round_trip_fails :
    (MockSpi.prefix_read 0
        (Mock.expect Inner.fresh [MockTransaction.SpiRead 0 [0xFF] [0xAA, 0xBB]])
        [0xFF] [0x00, 0x00]).2 = [0x00, 0x00]
    ∧ Inner.finaliseOk
        (MockSpi.prefix_read 0
            (Mock.expect Inner.fresh [MockTransaction.SpiRead 0 [0xFF] [0xAA, 0xBB]])
            [0xFF] [0x00, 0x00]).1 = false := by
  constructor <;> decide

/-- C7: `finalise` succeeds exactly when the expected and actual sequences are
equal element-for-element (the derived structural equality compares length,
order, record kind, payload bytes, and tagged handle identity); and at two
concrete diverging runs it fails: issuing a `prefix_write` where the single
expectation is a `SpiRead`, and issuing `is_high` on handle 1 where the
expectation is bound to handle 0. -/
theorem mock_finalise_exact_match (i : Inner) :
    (Inner.finaliseOk i = true ↔ i.expected = i.actual)
    ∧ Inner.finaliseOk
        (MockSpi.prefix_write 0
          (Mock.expect Inner.fresh [MockTransaction.SpiRead 0 [0xFF] [0xAA, 0xBB]])
          [0xFF] [0xAA, 0xBB]) = false
    ∧ Inner.finaliseOk
        (MockPin.is_high 1 (Mock.expect Inner.fresh [MockTransaction.IsHigh 0 true])).1
        = false := by
  refine ⟨?_, by decide, by decide⟩
  simp [Inner.finaliseOk]

/-- Witness for the finalise theorem: a matching session verifies. -/
theorem mock_finalise_exact_match_witness :
    Inner.finaliseOk
        ⟨1, [MockTransaction.Write 0 [0xAA]], [MockTransaction.Write 0 [0xAA]]⟩ = true :=
  (mock_finalise_exact_match
      ⟨1, [MockTransaction.Write 0 [0xAA]], [MockTransaction.Write 0 [0xAA]]⟩).1.mpr rfl

/-- C8: whatever expectation list, cursor position and actual history the
session held before, `expect(sequence)` leaves the expectation state equal to
the given sequence, the cursor at zero, and the actual history empty. -/
theorem mock_expect_resets (i : Inner) (seq : List MockTransaction) :
    (Mock.expect i seq).expected = seq
    ∧ (Mock.expect i seq).index = 0
    ∧ (Mock.expect i seq).actual = [] :=
  ⟨rfl, rfl, rfl⟩

/-! The HAL layer: backend selection (src/hal/mod.rs) and the Linux spidev
backend construction (src/hal/linux.rs).  Device opening and configuration
are collaborator effects; they are modelled as oracle functions passed in,
and each load function additionally returns the trace of collaborator calls
it attempted, in order. -/

/-- `HalError`, src/hal/error.rs: configuration errors plus wrapped backend
errors (whose payloads are abstracted to `Nat`). -/
inductive HalError
  | InvalidConfig
  | InvalidSpiMode
  | NoPin
  | NoDriver
  | Cp2130 (e : Nat)
  | Io (e : Nat)
  | Sysfs (e : Nat)
  | SysfsPin (e : Nat)
  | Spi (e : Nat)
deriving DecidableEq, Repr

/-- A backend-construction attempt recorded by `HalInst::load`. -/
inductive OpenAttempt (α : Type)
  | linux (path : α)
  | cp2130 (index : Nat)
deriving DecidableEq, Repr

/-- The backend constructors `HalInst::load` can dispatch to
(`linux::LinuxDriver::new` and `cp2130::Cp2130Driver::new`), as oracles over
an abstract path type `α` and driver type `γ`. -/
structure HalEnv (α γ : Type) where
  linuxNew : α → Except HalError γ
  cp2130New : Nat → Except HalError γ

/-- Shallow embedding of `HalInst::load` (src/hal/mod.rs lines 108-137): match
on `(spi_dev, cp2130_dev)`.  Both set is rejected as `InvalidConfig` before
any constructor runs; each single selection dispatches to its backend only
when that backend is compiled in (`hasLinux` / `hasCp2130` model the
`#[cfg]`-gated arms; with the feature off, or with neither source set, the
`_` arm rejects with `InvalidConfig`).  The trace records every backend
construction attempted. -/
def HalInst.load (hasLinux hasCp2130 : Bool) (env : HalEnv α γ)
    (spi_dev : Option α) (cp2130_dev : Option Nat) :
    Except HalError γ × List (OpenAttempt α) :=
  match spi_dev, cp2130_dev with
  | some _, some _ => (Except.error HalError.InvalidConfig, [])
  | some s, none =>
      if hasLinux then (env.linuxNew s, [OpenAttempt.linux s])
      else (Except.error HalError.InvalidConfig, [])
  | none, some idx =>
      if hasCp2130 then (env.cp2130New idx, [OpenAttempt.cp2130 idx])
      else (Except.error HalError.InvalidConfig, [])
  | none, none => (Except.error HalError.InvalidConfig, [])

/-- C9: selecting both backend sources, selecting neither, or selecting one
whose backend implementation is not compiled in, makes `HalInst::load` return
`InvalidConfig` with no backend construction (hence no device open or
hardware I/O) attempted.  `HalInst.load` is a pure function of the
configuration and the oracle, so equal inputs give this same outcome on every
invocation. -/
theorem hal_load_config_validation (hasLinux hasCp2130 : Bool) (env : HalEnv α γ)
    (spi_dev : Option α) (cp2130_dev : Option Nat)
    (h : (spi_dev.isSome = true ∧ cp2130_dev.isSome = true)
       ∨ (spi_dev = none ∧ cp2130_dev = none)
       ∨ (spi_dev.isSome = true ∧ cp2130_dev = none ∧ hasLinux = false)
       ∨ (spi_dev = none ∧ cp2130_dev.isSome = true ∧ hasCp2130 = false)) :
    (HalInst.load hasLinux hasCp2130 env spi_dev cp2130_dev).1
        = Except.error HalError.InvalidConfig
    ∧ (HalInst.load hasLinux hasCp2130 env spi_dev cp2130_dev).2 = [] := by
  rcases spi_dev with _ | s <;> rcases cp2130_dev with _ | c <;>
    simp_all [HalInst.load]

/-- An oracle whose backend constructors always succeed (with a trivial
driver value). -/
def okHalEnv : HalEnv Nat Unit :=
  { linuxNew := fun _ => Except.ok (), cp2130New := fun _ => Except.ok () }

/-- Witness for the configuration-validation theorem: both sources set, on a
build with both backends compiled in and constructors that would succeed. -/
theorem hal_load_config_validation_witness :
    ((some 0 : Option Nat).isSome = true ∧ (some 1 : Option Nat).isSome = true)
    ∧ (HalInst.load true true okHalEnv (some 0) (some 1)).1
        = Except.error HalError.InvalidConfig
    ∧ (HalInst.load true true okHalEnv (some 0) (some 1)).2 = [] :=
  ⟨⟨rfl, rfl⟩,
    (hal_load_config_validation true true okHalEnv (some 0) (some 1)
        (Or.inl ⟨rfl, rfl⟩)).1,
    (hal_load_config_validation true true okHalEnv (some 0) (some 1)
        (Or.inl ⟨rfl, rfl⟩)).2⟩

/-- `SpiConfig`, src/hal/mod.rs lines 42-50: baud rate and SPI mode. -/
structure SpiConfig where
  baud : Nat
  mode : Nat
deriving DecidableEq, Repr

/-- The spidev mode flags used by src/hal/linux.rs (`SpiModeFlags`); an OR of
flags is a list. -/
inductive SpiModeFlag
  | SPI_MODE_0
  | SPI_MODE_1
  | SPI_MODE_2
  | SPI_MODE_3
  | SPI_NO_CS
deriving DecidableEq, Repr

/-- `SpidevOptions` as built in `load_spi` (src/hal/linux.rs lines 106-108):
the mode flags and the max speed. -/
structure SpidevOptions where
  mode : List SpiModeFlag
  max_speed_hz : Nat
deriving DecidableEq, Repr

/-- A spidev collaborator call recorded by `load_spi`: a device-open attempt,
or a configure call with the options handed to the kernel. -/
inductive SpidevEv
  | opened (path : String)
  | configured (opts : SpidevOptions)
deriving DecidableEq, Repr

/-- The spidev collaborator (`Spidev::open` / `Spidev::configure`) as oracles
over an abstract device type `δ`. -/
structure SpidevEnv (δ : Type) where
  openDev : String → Except HalError δ
  configure : δ → SpidevOptions → Except HalError δ

/-- Shallow embedding of `load_spi` (src/hal/linux.rs lines 98-112): open the
device, then configure it.  The options passed to `configure` are built at
line 107 as `SPI_MODE_0 | SPI_NO_CS` — the `mode` parameter this function
received is only logged, never used — plus the baud as max speed. -/
def load_spi (env : SpidevEnv δ) (path : String) (baud : Nat)
    (mode : List SpiModeFlag) : Except HalError δ × List SpidevEv :=
  match env.openDev path with
  | Except.error e => (Except.error e, [SpidevEv.opened path])
  | Except.ok d =>
    let config : SpidevOptions :=
      { mode := [SpiModeFlag.SPI_MODE_0, SpiModeFlag.SPI_NO_CS], max_speed_hz := baud }
    match env.configure d config with
    | Except.error e => (Except.error e, [SpidevEv.opened path, SpidevEv.configured config])
    | Except.ok d2 => (Except.ok d2, [SpidevEv.opened path, SpidevEv.configured config])

/-- Shallow embedding of `LinuxDriver::new` (src/hal/linux.rs lines 16-35):
translate the configured mode value to its `SpiModeFlags` representation,
returning `InvalidSpiMode` — before any device open — for a value outside
`{0,1,2,3}`; OR in `SPI_NO_CS`; then call `load_spi` with the flags. -/
def LinuxDriver.new (env : SpidevEnv δ) (path : String) (spi : SpiConfig) :
    Except HalError δ × List SpidevEv :=
  match (match spi.mode with
         | 0 => Except.ok [SpiModeFlag.SPI_MODE_0]
         | 1 => Except.ok [SpiModeFlag.SPI_MODE_1]
         | 2 => Except.ok [SpiModeFlag.SPI_MODE_2]
         | 3 => Except.ok [SpiModeFlag.SPI_MODE_3]
         | _ => Except.error HalError.InvalidSpiMode) with
  | Except.error e => (Except.error e, [])
  | Except.ok flags0 =>
      load_spi env path spi.baud (flags0 ++ [SpiModeFlag.SPI_NO_CS])

/-- A spidev oracle whose open and configure always succeed. -/
def okSpidev : SpidevEnv Unit :=
  { openDev := fun _ => Except.ok (), configure := fun _ _ => Except.ok () }

/-- C10: the first half of the claim holds — a mode value outside `{0,1,2,3}`
is rejected as `InvalidSpiMode` with no device-open attempted — but the second
half fails: for mode 3 (and likewise 1 and 2) the device is configured with
`SPI_MODE_0 | SPI_NO_CS`, not with the native representation of the
configured mode, because `load_spi` ignores the flags it is passed
(src/hal/linux.rs line 107).  This theorem evaluates the embedding at both
inputs. -/
theorem linux_spi_mode_ignored :
    (LinuxDriver.new okSpidev "/dev/spidev0.0" ⟨1000000, 5⟩).1
        = Except.error HalError.InvalidSpiMode
    ∧ (LinuxDriver.new okSpidev "/dev/spidev0.0" ⟨1000000, 5⟩).2 = []
    ∧ (LinuxDriver.new okSpidev "/dev/spidev0.0" ⟨1000000, 3⟩).2
        = [SpidevEv.opened "/dev/spidev0.0",
           SpidevEv.configured ⟨[SpiModeFlag.SPI_MODE_0, SpiModeFlag.SPI_NO_CS], 1000000⟩] :=
  ⟨rfl, rfl, rfl⟩

end DriverPal
